import Mathlib

/-!
Verification model of the weighted goal-region sampler of
`moveit_ompl_planning_interface`.

The repository contains two structurally near-identical classes:

* `ompl::base::WeightedGoalRegionSamples`
  (src/ompl_interface/src/detail/weighted_goal_region_samples.cpp), and
* `ompl::base::WeightedGoalRegionSampler`
  (src/ompl_interface/src/modified_planners/weighted_goal_region_sampler.cpp).

Both maintain a list of accepted goal states (the `GoalStates` base class
storage `states_`), a priority queue of weighted goals
(`goals_priority_queue_`), counters `num_sampled_goals_` /
`max_sampled_goals_`, the flags `sample_goals_` and
`terminateSamplingThread_`, and a background sampling thread.

The embedding below is a shallow one:

* goal states are an arbitrary type `St`; the external space-information
  oracles (`si_->satisfiesBounds`, `si_->isValid`, `GoalStates::distanceGoal`)
  are parameters;
* `double` weights are modelled as exact rationals `ℚ` (the weight-update
  arithmetic `w / (w + 1)`, `w / (1 - w)`, and the constants `0.2 = 1/5`,
  `0.5 = 1/2` are exact);
* the binary heap `goals_priority_queue_` is modelled by the list of its
  entries; the head of the list plays the role of the heap top, and the
  heap-reorder operation `update` keeps the entry set unchanged, which is
  the only aspect the verified claims depend on;
* one loop iteration of the sampling thread (the body of
  `while (isSampling())`) is a state-transformer parameterised by the batch
  of candidate states the injected sampler function yields;
* the thread pointer `samplingThread_` is modelled by the Boolean
  `samplingThreadRunning_` (`true` iff the pointer is non-null).
-/

/-- Entry of the goal priority queue: a goal state paired with its mutable
weight (`WeightedGoal` in the C++ headers: fields `state_` and `weight_`). -/
structure WGoal (St : Type) where
  state_ : St
  weight_ : ℚ
deriving DecidableEq

/-- Shared mutable state of a `WeightedGoalRegionSamples` object, following
the member list initialised by the constructor
(weighted_goal_region_samples.cpp lines 44-61): the `GoalStates` storage
`states_`, the weight heap `goals_priority_queue_`, the thread bookkeeping
(`terminateSamplingThread_`, `samplingThread_` modelled as a running flag,
`samplingAttempts_`), `minDist_`, and the goal-counting fields
`max_sampled_goals_`, `sample_goals_`, `num_sampled_goals_`. -/
structure GoalRegionState (St : Type) where
  states_ : List St
  goals_priority_queue_ : List (WGoal St)
  terminateSamplingThread_ : Bool
  samplingThreadRunning_ : Bool
  samplingAttempts_ : Nat
  minDist_ : ℚ
  max_sampled_goals_ : Nat
  sample_goals_ : Bool
  num_sampled_goals_ : Nat
deriving DecidableEq

/-- Out-parameter of `sampleWeightedGoal` (the C++ `WeightedGoal&` argument):
the copied state, the weight, and the heap handle (modelled as the index of
the heap top, i.e. `0`). -/
structure WeightedGoalOut (St : Type) where
  state_ : St
  weight_ : ℚ
  heap_element_ : Nat
deriving DecidableEq

/-- Errors surfaced by the selection operations.  `emptyRegion` is the
`Exception("There are no goals to sample")` thrown when `states_` is empty;
`invalidHeapTop` marks the undefined behaviour of dereferencing the top of
an empty binary heap (no exception is thrown there in C++). -/
inductive GoalsError where
  | emptyRegion
  | invalidHeapTop
deriving DecidableEq

/-- Tests whether a selection result is the empty-region error. -/
def isEmptyRegionError {α : Type} : Except GoalsError α → Bool
  | Except.error GoalsError.emptyRegion => true
  | _ => false

namespace WeightedGoalRegionSamples

/-- Embeds `WeightedGoalRegionSamples::startSampling` (lines 68-77): if the
thread pointer is null, clear the terminate flag and launch the thread;
otherwise do nothing. -/
def startSampling {St : Type} (s : GoalRegionState St) : GoalRegionState St :=
  if s.samplingThreadRunning_ then s
  else { s with terminateSamplingThread_ := false, samplingThreadRunning_ := true }

/-- Embeds `WeightedGoalRegionSamples::stopSampling` (lines 79-98): set the
terminate flag, then join and delete the thread (pointer becomes null). -/
def stopSampling {St : Type} (s : GoalRegionState St) : GoalRegionState St :=
  { s with terminateSamplingThread_ := true, samplingThreadRunning_ := false }

/-- Embeds `WeightedGoalRegionSamples::isSampling` (lines 169-173):
`!terminateSamplingThread_ && samplingThread_ != nullptr`. -/
def isSampling {St : Type} (s : GoalRegionState St) : Bool :=
  !s.terminateSamplingThread_ && s.samplingThreadRunning_

/-- Embeds the constructor (lines 44-61): fields are initialised with
`terminateSamplingThread_ = false`, no thread, `samplingAttempts_ = 0`,
`sample_goals_ = true`, `num_sampled_goals_ = 0`, empty storage; then
`startSampling()` runs when `autoStart` holds. -/
def construct (St : Type) (max_sampled_goals : Nat) (autoStart : Bool) (minDist : ℚ) :
    GoalRegionState St :=
  let s : GoalRegionState St :=
    { states_ := []
      goals_priority_queue_ := []
      terminateSamplingThread_ := false
      samplingThreadRunning_ := false
      samplingAttempts_ := 0
      minDist_ := minDist
      max_sampled_goals_ := max_sampled_goals
      sample_goals_ := true
      num_sampled_goals_ := 0 }
  if autoStart then startSampling s else s

/-- Embeds `WeightedGoalRegionSamples::clear` (lines 180-185):
`GoalStates::clear()` empties the stored states and the priority queue is
cleared, under the lock. -/
def clear {St : Type} (s : GoalRegionState St) : GoalRegionState St :=
  { s with states_ := [], goals_priority_queue_ := [] }

/-- Embeds `WeightedGoalRegionSamples::addState` (lines 204-208):
`GoalStates::addState` appends a copy of the state to `states_`
(the base-class behaviour, per the spec: "add(state) appends a validated
copy"). -/
def addState {St : Type} (s : GoalRegionState St) (st : St) : GoalRegionState St :=
  { s with states_ := s.states_ ++ [st] }

/-- Embeds `WeightedGoalRegionSamples::addStateIfDifferent` (lines 234-253):
under the lock, if `GoalStates::distanceGoal(st) > minDistance` the state is
appended and `added = true`; the external distance oracle `distanceGoal` is
a parameter.  Returns the new state and the `added` flag. -/
def addStateIfDifferent {St : Type} (distanceGoal : List St → St → ℚ)
    (s : GoalRegionState St) (st : St) (minDistance : ℚ) :
    GoalRegionState St × Bool :=
  if distanceGoal s.states_ st > minDistance then
    ({ s with states_ := s.states_ ++ [st] }, true)
  else (s, false)

/-- Embeds the body of the `for (auto& sampled_state : sampled_states)` loop
of `goalSamplingThread` (lines 130-146): a candidate passing
`si_->satisfiesBounds` and `si_->isValid` sets
`increase_num_sampled_goals = true`, increments `num_sampled_goals_` and is
appended via `GoalStates::addState`; otherwise it is discarded. -/
def acceptState {St : Type} (satisfiesBounds isValid : St → Bool)
    (acc : GoalRegionState St × Bool) (st : St) : GoalRegionState St × Bool :=
  if satisfiesBounds st && isValid st then
    ({ acc.1 with
        num_sampled_goals_ := acc.1.num_sampled_goals_ + 1
        states_ := acc.1.states_ ++ [st] }, true)
  else acc

/-- Embeds one iteration of the `while (isSampling())` loop of
`goalSamplingThread` (lines 119-155): when `num_sampled_goals_ <
max_sampled_goals_` the injected sampler yields `sampled_states`, each
candidate is processed by `acceptState`, then
`if (num_sampled_goals_ >= max_sampled_goals_) sample_goals_ = false`, and
`samplingAttempts_` increments when at least one candidate was accepted;
otherwise the iteration does nothing. -/
def goalSamplingIter {St : Type} (satisfiesBounds isValid : St → Bool)
    (sampled_states : List St) (s : GoalRegionState St) : GoalRegionState St :=
  if s.num_sampled_goals_ < s.max_sampled_goals_ then
    let r := sampled_states.foldl (acceptState satisfiesBounds isValid) (s, false)
    let s1 := r.1
    let s2 :=
      if s1.max_sampled_goals_ ≤ s1.num_sampled_goals_ then
        { s1 with sample_goals_ := false }
      else s1
    if r.2 then { s2 with samplingAttempts_ := s2.samplingAttempts_ + 1 } else s2
  else s

/-- Iterates `goalSamplingIter` `n` times with a sampler function that yields
the same batch on every call (the scenario of the spec fixes such a
sampler). -/
def goalSamplingRun {St : Type} (satisfiesBounds isValid : St → Bool)
    (sampled_states : List St) : Nat → GoalRegionState St → GoalRegionState St
  | 0, s => s
  | Nat.succ n, s =>
      goalSamplingRun satisfiesBounds isValid sampled_states n
        (goalSamplingIter satisfiesBounds isValid sampled_states s)

/-- Embeds the epilogue of `goalSamplingThread` (lines 161-164): when the
loop has exited, the thread marks itself terminated by setting
`terminateSamplingThread_ = true` under the lock. -/
def threadEpilogue {St : Type} (s : GoalRegionState St) : GoalRegionState St :=
  { s with terminateSamplingThread_ := true }

/-- Embeds `WeightedGoalRegionSamples::penalizeWeightedGoal` (lines 255-278)
acting on the queue entry at index `i` (the heap handle carried by the
argument): read `w`, overwrite the weight with `w / (w + 1)` and reorder the
heap; then, if `w < 0.2 && !sample_goals_`, set every queued goal's weight
to `0.5`, set `sample_goals_ = true` and add `10` to `max_sampled_goals_`.
An index outside the queue corresponds to an invalid handle (undefined
behaviour in C++) and is modelled as a no-op. -/
def penalizeWeightedGoal {St : Type} (s : GoalRegionState St) (i : Nat) :
    GoalRegionState St :=
  match s.goals_priority_queue_.get? i with
  | none => s
  | some g =>
      let w := g.weight_
      let q1 := s.goals_priority_queue_.set i { g with weight_ := w / (w + 1) }
      if w < 1 / 5 ∧ s.sample_goals_ = false then
        { s with
            goals_priority_queue_ := q1.map (fun g2 => { g2 with weight_ := 1 / 2 })
            sample_goals_ := true
            max_sampled_goals_ := s.max_sampled_goals_ + 10 }
      else { s with goals_priority_queue_ := q1 }

/-- Embeds `WeightedGoalRegionSamples::rewardWeightedGoal` (lines 280-297)
acting on the queue entry at index `i`: read `w`; if `w < 1.0` compute
`new_w = w / (1 - w)`, clamp it to `1.0` when it exceeds `1.0`, store it and
reorder the heap; otherwise do nothing. -/
def rewardWeightedGoal {St : Type} (s : GoalRegionState St) (i : Nat) :
    GoalRegionState St :=
  match s.goals_priority_queue_.get? i with
  | none => s
  | some g =>
      let w := g.weight_
      if w < 1 then
        let new_w := w / (1 - w)
        let new_w := if new_w > 1 then 1 else new_w
        { s with goals_priority_queue_ := s.goals_priority_queue_.set i { g with weight_ := new_w } }
      else s

/-- Embeds `WeightedGoalRegionSamples::sampleWeightedGoal` (lines 299-309):
throw the empty-region exception if `states_` is empty; otherwise read the
heap top and copy its state, weight and heap handle into the out-parameter,
leaving the object state unchanged (returned alongside the output). -/
def sampleWeightedGoal {St : Type} (s : GoalRegionState St) :
    Except GoalsError (WeightedGoalOut St × GoalRegionState St) :=
  if s.states_.isEmpty then Except.error GoalsError.emptyRegion
  else
    match s.goals_priority_queue_.head? with
    | none => Except.error GoalsError.invalidHeapTop
    | some g => Except.ok (⟨g.state_, g.weight_, 0⟩, s)

/-- Embeds `WeightedGoalRegionSamples::sampleConsecutiveGoal` (lines
311-327): throw the empty-region exception if `states_` is empty; otherwise
delegate to `GoalStates::sampleGoal`, which returns the stored states in
round-robin order driven by an internal cursor (modelled as the explicit
argument `cursor`).  The object state is unchanged. -/
def sampleConsecutiveGoal {St : Type} (s : GoalRegionState St) (cursor : Nat) :
    Except GoalsError (St × GoalRegionState St) :=
  match s.states_ with
  | [] => Except.error GoalsError.emptyRegion
  | st :: rest => Except.ok (List.getD (st :: rest) (cursor % (rest.length + 1)) st, s)

/-- Models the external population of the priority queue (the queue is
filled by the planner-side sampler callbacks, outside these two source
files; per the spec the queue is "populated as goals arrive"): appends one
weighted goal. -/
def pushGoal {St : Type} (s : GoalRegionState St) (g : WGoal St) : GoalRegionState St :=
  { s with goals_priority_queue_ := s.goals_priority_queue_ ++ [g] }

end WeightedGoalRegionSamples

namespace WeightedGoalRegionSampler

/-- Embeds `WeightedGoalRegionSampler::startSampling`
(weighted_goal_region_sampler.cpp lines 71-80), identical to the
`WeightedGoalRegionSamples` version. -/
def startSampling {St : Type} (s : GoalRegionState St) : GoalRegionState St :=
  if s.samplingThreadRunning_ then s
  else { s with terminateSamplingThread_ := false, samplingThreadRunning_ := true }

/-- Embeds `WeightedGoalRegionSampler::stopSampling` (lines 82-101). -/
def stopSampling {St : Type} (s : GoalRegionState St) : GoalRegionState St :=
  { s with terminateSamplingThread_ := true, samplingThreadRunning_ := false }

/-- Embeds `WeightedGoalRegionSampler::isSampling` (lines 219-223). -/
def isSampling {St : Type} (s : GoalRegionState St) : Bool :=
  !s.terminateSamplingThread_ && s.samplingThreadRunning_

/-- Embeds the `WeightedGoalRegionSampler` constructor (lines 44-63); the
shared fields are initialised exactly as in `WeightedGoalRegionSamples`. -/
def construct (St : Type) (max_sampled_goals : Nat) (autoStart : Bool) (minDist : ℚ) :
    GoalRegionState St :=
  let s : GoalRegionState St :=
    { states_ := []
      goals_priority_queue_ := []
      terminateSamplingThread_ := false
      samplingThreadRunning_ := false
      samplingAttempts_ := 0
      minDist_ := minDist
      max_sampled_goals_ := max_sampled_goals
      sample_goals_ := true
      num_sampled_goals_ := 0 }
  if autoStart then startSampling s else s

/-- Embeds `WeightedGoalRegionSampler::clear` (lines 236-241). -/
def clear {St : Type} (s : GoalRegionState St) : GoalRegionState St :=
  { s with states_ := [], goals_priority_queue_ := [] }

/-- Embeds `WeightedGoalRegionSampler::addState` (lines 260-264). -/
def addState {St : Type} (s : GoalRegionState St) (st : St) : GoalRegionState St :=
  { s with states_ := s.states_ ++ [st] }

/-- Embeds `WeightedGoalRegionSampler::addStateIfDifferent` (lines 290-309). -/
def addStateIfDifferent {St : Type} (distanceGoal : List St → St → ℚ)
    (s : GoalRegionState St) (st : St) (minDistance : ℚ) :
    GoalRegionState St × Bool :=
  if distanceGoal s.states_ st > minDistance then
    ({ s with states_ := s.states_ ++ [st] }, true)
  else (s, false)

/-- Embeds the candidate-processing loop body of
`WeightedGoalRegionSampler::goalSamplingThread` (lines 165-181). -/
def acceptState {St : Type} (satisfiesBounds isValid : St → Bool)
    (acc : GoalRegionState St × Bool) (st : St) : GoalRegionState St × Bool :=
  if satisfiesBounds st && isValid st then
    ({ acc.1 with
        num_sampled_goals_ := acc.1.num_sampled_goals_ + 1
        states_ := acc.1.states_ ++ [st] }, true)
  else acc

/-- Embeds one iteration of the `while (isSampling())` loop of
`WeightedGoalRegionSampler::goalSamplingThread` (lines 154-190). -/
def goalSamplingIter {St : Type} (satisfiesBounds isValid : St → Bool)
    (sampled_states : List St) (s : GoalRegionState St) : GoalRegionState St :=
  if s.num_sampled_goals_ < s.max_sampled_goals_ then
    let r := sampled_states.foldl (acceptState satisfiesBounds isValid) (s, false)
    let s1 := r.1
    let s2 :=
      if s1.max_sampled_goals_ ≤ s1.num_sampled_goals_ then
        { s1 with sample_goals_ := false }
      else s1
    if r.2 then { s2 with samplingAttempts_ := s2.samplingAttempts_ + 1 } else s2
  else s

/-- Embeds the epilogue of `WeightedGoalRegionSampler::goalSamplingThread`
(lines 197-200). -/
def threadEpilogue {St : Type} (s : GoalRegionState St) : GoalRegionState St :=
  { s with terminateSamplingThread_ := true }

/-- Embeds `WeightedGoalRegionSampler::penalizeWeightedGoal` (lines 311-334). -/
def penalizeWeightedGoal {St : Type} (s : GoalRegionState St) (i : Nat) :
    GoalRegionState St :=
  match s.goals_priority_queue_.get? i with
  | none => s
  | some g =>
      let w := g.weight_
      let q1 := s.goals_priority_queue_.set i { g with weight_ := w / (w + 1) }
      if w < 1 / 5 ∧ s.sample_goals_ = false then
        { s with
            goals_priority_queue_ := q1.map (fun g2 => { g2 with weight_ := 1 / 2 })
            sample_goals_ := true
            max_sampled_goals_ := s.max_sampled_goals_ + 10 }
      else { s with goals_priority_queue_ := q1 }

/-- Embeds `WeightedGoalRegionSampler::rewardWeightedGoal` (lines 336-353). -/
def rewardWeightedGoal {St : Type} (s : GoalRegionState St) (i : Nat) :
    GoalRegionState St :=
  match s.goals_priority_queue_.get? i with
  | none => s
  | some g =>
      let w := g.weight_
      if w < 1 then
        let new_w := w / (1 - w)
        let new_w := if new_w > 1 then 1 else new_w
        { s with goals_priority_queue_ := s.goals_priority_queue_.set i { g with weight_ := new_w } }
      else s

/-- Embeds `WeightedGoalRegionSampler::sampleWeightedGoal` (lines 355-365). -/
def sampleWeightedGoal {St : Type} (s : GoalRegionState St) :
    Except GoalsError (WeightedGoalOut St × GoalRegionState St) :=
  if s.states_.isEmpty then Except.error GoalsError.emptyRegion
  else
    match s.goals_priority_queue_.head? with
    | none => Except.error GoalsError.invalidHeapTop
    | some g => Except.ok (⟨g.state_, g.weight_, 0⟩, s)

/-- Embeds `WeightedGoalRegionSampler::sampleConsecutiveGoal` (lines
367-383). -/
def sampleConsecutiveGoal {St : Type} (s : GoalRegionState St) (cursor : Nat) :
    Except GoalsError (St × GoalRegionState St) :=
  match s.states_ with
  | [] => Except.error GoalsError.emptyRegion
  | st :: rest => Except.ok (List.getD (st :: rest) (cursor % (rest.length + 1)) st, s)

/-- Models the external population of the priority queue, as in
`WeightedGoalRegionSamples.pushGoal`. -/
def pushGoal {St : Type} (s : GoalRegionState St) (g : WGoal St) : GoalRegionState St :=
  { s with goals_priority_queue_ := s.goals_priority_queue_ ++ [g] }

/-- Bookkeeping of the additional roadmap-growing worker of
`WeightedGoalRegionSampler` (absent from `WeightedGoalRegionSamples`):
`terminateGrowingRoadmapThread_` and the thread pointer
`growingRoadmapThread_` modelled as a running flag. -/
structure RoadmapWorker where
  terminateGrowingRoadmapThread_ : Bool
  growingRoadmapThreadRunning_ : Bool
deriving DecidableEq

/-- Embeds `WeightedGoalRegionSampler::startGrowingRoadmap` (lines 103-112). -/
def startGrowingRoadmap (w : RoadmapWorker) : RoadmapWorker :=
  if w.growingRoadmapThreadRunning_ then w
  else { terminateGrowingRoadmapThread_ := false, growingRoadmapThreadRunning_ := true }

/-- Embeds `WeightedGoalRegionSampler::stopGrowingRoadmap` (lines 114-133). -/
def stopGrowingRoadmap (w : RoadmapWorker) : RoadmapWorker :=
  { w with terminateGrowingRoadmapThread_ := true, growingRoadmapThreadRunning_ := false }

/-- Embeds `WeightedGoalRegionSampler::isGrowingRoadmap` (lines 225-229). -/
def isGrowingRoadmap (w : RoadmapWorker) : Bool :=
  !w.terminateGrowingRoadmapThread_ && w.growingRoadmapThreadRunning_

/-- Embeds one iteration of `WeightedGoalRegionSampler::roadmapGrowingThread`
(lines 205-217): while the worker runs, the external roadmap (an abstract
value of type `R`) is extended by the injected grow operation. -/
def roadmapGrowingIter {R : Type} (growRoadmap : R → R) (w : RoadmapWorker) (r : R) : R :=
  if isGrowingRoadmap w then growRoadmap r else r

end WeightedGoalRegionSampler

/-!
Lock and callback event traces.

The following definitions record, for each method of
`WeightedGoalRegionSamples` (weighted_goal_region_samples.cpp; the
`WeightedGoalRegionSampler` methods are textually identical), the sequence
of synchronisation-relevant events its body performs, in source order:

* `acq` / `rel` - construction and destruction of a
  `std::lock_guard<std::mutex> slock(lock_)` on the single mutex `lock_`;
* `access` - a read or write of the shared goal collection `states_` or of
  the weight heap `goals_priority_queue_`;
* `callback` - an invocation of the registered new-state callback
  `callback_`.

Branch-dependent parts of a trace are mirrored by Boolean parameters.
-/

/-- Synchronisation-relevant events of a method body. -/
inductive Ev where
  | acq
  | rel
  | access
  | callback
deriving DecidableEq

/-- Checks, carrying the current lock depth `d`, that every `access` event
of the trace happens while the lock is held (depth nonzero). -/
def accessesUnderLock : List Ev → Nat → Bool
  | [], _ => true
  | Ev.acq :: tr, d => accessesUnderLock tr (d + 1)
  | Ev.rel :: tr, d => accessesUnderLock tr (d - 1)
  | Ev.access :: tr, d => d != 0 && accessesUnderLock tr d
  | Ev.callback :: tr, d => accessesUnderLock tr d

/-- Checks, carrying the current lock depth `d`, that every `callback` event
of the trace happens while the lock is not held (depth zero). -/
def callbackOutsideLock : List Ev → Nat → Bool
  | [], _ => true
  | Ev.acq :: tr, d => callbackOutsideLock tr (d + 1)
  | Ev.rel :: tr, d => callbackOutsideLock tr (d - 1)
  | Ev.access :: tr, d => callbackOutsideLock tr d
  | Ev.callback :: tr, d => d == 0 && callbackOutsideLock tr d

/-- Event trace of `WeightedGoalRegionSamples::addState` (lines 204-208):
lock, `GoalStates::addState` touches `states_`, unlock.  The body never
consults `callback_`, for any registration state. -/
def addStateEvents : List Ev := [Ev.acq, Ev.access, Ev.rel]

/-- Event trace of one accepted-candidate insertion inside
`goalSamplingThread` (lines 139-140): lock, `GoalStates::addState` touches
`states_`, unlock at scope end.  The thread never consults `callback_`. -/
def samplingThreadInsertEvents : List Ev := [Ev.acq, Ev.access, Ev.rel]

/-- Event trace of `WeightedGoalRegionSamples::addStateIfDifferent` (lines
234-253): lock; `GoalStates::distanceGoal` reads `states_`; if inserting,
`GoalStates::addState` writes `states_` and, when a callback is registered,
`states_.back()` is read; unlock; finally, if a state was inserted and a
callback is registered, the callback fires outside the lock. -/
def addStateIfDifferentEvents (added registered : Bool) : List Ev :=
  [Ev.acq, Ev.access] ++
    (if added then [Ev.access] ++ (if registered then [Ev.access] else []) else []) ++
    [Ev.rel] ++
    (if added && registered then [Ev.callback] else [])

/-- Event trace of `WeightedGoalRegionSamples::clear` (lines 180-185): lock,
`GoalStates::clear` touches `states_`, `goals_priority_queue_.clear()`
touches the heap, unlock. -/
def clearEvents : List Ev := [Ev.acq, Ev.access, Ev.access, Ev.rel]

/-- Event trace of `WeightedGoalRegionSamples::distanceGoal` (lines 187-191). -/
def distanceGoalEvents : List Ev := [Ev.acq, Ev.access, Ev.rel]

/-- Event trace of `WeightedGoalRegionSamples::sampleGoal` (lines 193-197). -/
def sampleGoalEvents : List Ev := [Ev.acq, Ev.access, Ev.rel]

/-- Event trace of `WeightedGoalRegionSamples::getState` (lines 210-214). -/
def getStateEvents : List Ev := [Ev.acq, Ev.access, Ev.rel]

/-- Event trace of `WeightedGoalRegionSamples::hasStates` (lines 216-220). -/
def hasStatesEvents : List Ev := [Ev.acq, Ev.access, Ev.rel]

/-- Event trace of `WeightedGoalRegionSamples::getStateCount` (lines 222-226). -/
def getStateCountEvents : List Ev := [Ev.acq, Ev.access, Ev.rel]

/-- Event trace of `WeightedGoalRegionSamples::maxSampleCount` (lines 228-232). -/
def maxSampleCountEvents : List Ev := [Ev.acq, Ev.access, Ev.rel]

/-- Event trace of `WeightedGoalRegionSamples::penalizeWeightedGoal` (lines
255-278): the weight read and the write-plus-heap-update happen with NO lock
acquisition anywhere in the body; when the region reset triggers,
`getContent` reads the heap and the reset loop rewrites it, still without
the lock. -/
def penalizeWeightedGoalEvents (reset : Bool) : List Ev :=
  [Ev.access, Ev.access] ++ (if reset then [Ev.access, Ev.access] else [])

/-- Event trace of `WeightedGoalRegionSamples::rewardWeightedGoal` (lines
280-297): the weight read, and when `w < 1.0` the write-plus-heap-update,
all without any lock acquisition. -/
def rewardWeightedGoalEvents (updated : Bool) : List Ev :=
  [Ev.access] ++ (if updated then [Ev.access] else [])

/-- Event trace of `WeightedGoalRegionSamples::sampleWeightedGoal` (lines
299-309): `states_.empty()` is read, then the heap top is read and copied,
without any lock acquisition. -/
def sampleWeightedGoalEvents : List Ev := [Ev.access, Ev.access]

/-- Event trace of `WeightedGoalRegionSamples::sampleConsecutiveGoal` (lines
311-327): `states_.empty()` is read, then `GoalStates::sampleGoal` reads
`states_`; the lock acquisition is commented out in the source. -/
def sampleConsecutiveGoalEvents : List Ev := [Ev.access, Ev.access]

/-- Event trace of `WeightedGoalRegionSamples::startSampling` (lines 68-77):
the lock guards only the thread pointer and the terminate flag; neither
`states_` nor the heap is touched. -/
def startSamplingEvents : List Ev := [Ev.acq, Ev.rel]

/-- Event trace of the flag-setting critical section of
`WeightedGoalRegionSamples::stopSampling` (lines 79-98). -/
def stopSamplingEvents : List Ev := [Ev.acq, Ev.rel]

/-!
Weight-update arithmetic.

`penalizeUpdate` and `rewardUpdate` isolate the arithmetic the two weight
mutators apply to a single weight, and `singleGoalState` / `penaltySeq` /
`rewardSeq` run the actual operations on a state whose queue holds a single
weighted goal, as in the algebraic claims about call sequences on one goal.
-/

/-- The weight substitution of `penalizeWeightedGoal` (line 259):
`w / (w + 1)`. -/
def penalizeUpdate (w : ℚ) : ℚ := w / (w + 1)

/-- The weight substitution of `rewardWeightedGoal` (lines 285-292): when
`w < 1.0`, `w / (1 - w)` clamped to at most `1.0`; otherwise unchanged. -/
def rewardUpdate (w : ℚ) : ℚ :=
  if w < 1 then (if w / (1 - w) > 1 then 1 else w / (1 - w)) else w

/-- Iterated penalization of a single weight. -/
def penalizeIter (w0 : ℚ) : Nat → ℚ
  | 0 => w0
  | Nat.succ n => penalizeUpdate (penalizeIter w0 n)

/-- Iterated reward of a single weight. -/
def rewardIter (w0 : ℚ) : Nat → ℚ
  | 0 => w0
  | Nat.succ n => rewardUpdate (rewardIter w0 n)

/-- State of a region holding exactly one accepted goal whose queue entry
has weight `w`; the sampling flag is `true`, so the region-reset branch of
`penalizeWeightedGoal` never triggers. -/
def singleGoalState (w : ℚ) : GoalRegionState Unit :=
  { states_ := [()]
    goals_priority_queue_ := [⟨(), w⟩]
    terminateSamplingThread_ := false
    samplingThreadRunning_ := false
    samplingAttempts_ := 0
    minDist_ := 0
    max_sampled_goals_ := 1
    sample_goals_ := true
    num_sampled_goals_ := 1 }

/-- State after `n` calls of `penalizeWeightedGoal` on the single goal. -/
def penaltySeq (w0 : ℚ) : Nat → GoalRegionState Unit
  | 0 => singleGoalState w0
  | Nat.succ n => WeightedGoalRegionSamples.penalizeWeightedGoal (penaltySeq w0 n) 0

/-- State after `n` calls of `rewardWeightedGoal` on the single goal. -/
def rewardSeq (w0 : ℚ) : Nat → GoalRegionState Unit
  | 0 => singleGoalState w0
  | Nat.succ n => WeightedGoalRegionSamples.rewardWeightedGoal (rewardSeq w0 n) 0

/-- Weight of the queue-top goal (`0` when the queue is empty; the claims
use it only on nonempty queues). -/
def topWeight {St : Type} (s : GoalRegionState St) : ℚ :=
  match s.goals_priority_queue_ with
  | [] => 0
  | g :: _ => g.weight_

lemma penalizeUpdate_pos {w : ℚ} (hw : 0 < w) : 0 < penalizeUpdate w :=
  div_pos hw (by linarith)

lemma penalizeUpdate_lt {w : ℚ} (hw : 0 < w) : penalizeUpdate w < w := by
  unfold penalizeUpdate
  rw [div_lt_iff₀ (by linarith : (0 : ℚ) < w + 1)]
  nlinarith [mul_pos hw hw]

lemma rewardUpdate_ge {w : ℚ} (h0 : 0 ≤ w) (h1 : w ≤ 1) : w ≤ rewardUpdate w := by
  unfold rewardUpdate
  split_ifs with hw hc
  · exact h1
  · rw [le_div_iff₀ (by linarith : (0 : ℚ) < 1 - w)]
    nlinarith [sq_nonneg w]
  · exact le_refl w

lemma rewardUpdate_le_one {w : ℚ} (h1 : w ≤ 1) : rewardUpdate w ≤ 1 := by
  unfold rewardUpdate
  split_ifs with hw hc
  · exact le_refl 1
  · exact le_of_not_lt hc
  · exact h1

lemma rewardUpdate_nonneg {w : ℚ} (h0 : 0 ≤ w) (h1 : w ≤ 1) : 0 ≤ rewardUpdate w := by
  unfold rewardUpdate
  split_ifs with hw hc
  · norm_num
  · exact div_nonneg h0 (by linarith)
  · exact h0

lemma rewardUpdate_one : rewardUpdate 1 = 1 := by
  norm_num [rewardUpdate]

lemma penalize_singleGoal (w : ℚ) :
    WeightedGoalRegionSamples.penalizeWeightedGoal (singleGoalState w) 0 =
      singleGoalState (penalizeUpdate w) := by
  simp [WeightedGoalRegionSamples.penalizeWeightedGoal, singleGoalState, penalizeUpdate]

lemma reward_singleGoal (w : ℚ) :
    WeightedGoalRegionSamples.rewardWeightedGoal (singleGoalState w) 0 =
      singleGoalState (rewardUpdate w) := by
  by_cases hw : w < 1 <;>
    simp [WeightedGoalRegionSamples.rewardWeightedGoal, singleGoalState, rewardUpdate, hw]

lemma penaltySeq_eq (w0 : ℚ) : ∀ n, penaltySeq w0 n = singleGoalState (penalizeIter w0 n)
  | 0 => rfl
  | Nat.succ n => by
      rw [penaltySeq, penaltySeq_eq w0 n, penalize_singleGoal, penalizeIter]

lemma rewardSeq_eq (w0 : ℚ) : ∀ n, rewardSeq w0 n = singleGoalState (rewardIter w0 n)
  | 0 => rfl
  | Nat.succ n => by
      rw [rewardSeq, rewardSeq_eq w0 n, reward_singleGoal, rewardIter]

lemma penalizeIter_pos {w0 : ℚ} (h0 : 0 < w0) : ∀ n, 0 < penalizeIter w0 n
  | 0 => h0
  | Nat.succ n => penalizeUpdate_pos (penalizeIter_pos h0 n)

lemma rewardIter_bounds {w0 : ℚ} (h0 : 0 ≤ w0) (h1 : w0 ≤ 1) :
    ∀ n, 0 ≤ rewardIter w0 n ∧ rewardIter w0 n ≤ 1
  | 0 => ⟨h0, h1⟩
  | Nat.succ n => by
      obtain ⟨ha, hb⟩ := rewardIter_bounds h0 h1 n
      exact ⟨rewardUpdate_nonneg ha hb, rewardUpdate_le_one hb⟩

lemma topWeight_singleGoal (w : ℚ) : topWeight (singleGoalState w) = w := rfl

/-- C4: for every sequence of `penalizeWeightedGoal` calls on a single
weighted goal whose initial weight lies in `(0, 1]`, each call replaces the
weight `w` by `w / (w + 1)` (the region reset cannot overwrite it here,
since `sample_goals_` stays `true`), so the weight is strictly decreasing
across the sequence and always remains strictly greater than `0`. -/
theorem penalize_seq_strict_decreasing (w0 : ℚ) (n : Nat) (h0 : 0 < w0) (h1 : w0 ≤ 1) :
    topWeight (penaltySeq w0 (n + 1)) = penalizeUpdate (topWeight (penaltySeq w0 n)) ∧
    topWeight (penaltySeq w0 (n + 1)) < topWeight (penaltySeq w0 n) ∧
    0 < topWeight (penaltySeq w0 n) := by
  rw [penaltySeq_eq w0 (n + 1), penaltySeq_eq w0 n, topWeight_singleGoal,
    topWeight_singleGoal]
  refine ⟨rfl, ?_, penalizeIter_pos h0 n⟩
  exact penalizeUpdate_lt (penalizeIter_pos h0 n)

/-- Witness for C4 at `w0 = 1`, `n = 0`: one penalization takes the weight
from `1` to `1/2`. -/
theorem penalize_seq_strict_decreasing_witness :
    topWeight (penaltySeq 1 1) = penalizeUpdate (topWeight (penaltySeq 1 0)) ∧
    topWeight (penaltySeq 1 1) < topWeight (penaltySeq 1 0) ∧
    0 < topWeight (penaltySeq 1 0) :=
  penalize_seq_strict_decreasing 1 0 (by decide) (by decide)

/-- C5: for every sequence of `rewardWeightedGoal` calls on a single
weighted goal with weight in `[0, 1]`, the weight after each call is
`w / (1 - w)` clamped to at most `1.0` when `w < 1.0` (unchanged
otherwise), so the weight is non-decreasing and never exceeds `1.0`; once
the weight equals `1.0`, every further reward call leaves it unchanged. -/
theorem reward_seq_monotone (w0 : ℚ) (n : Nat) (h0 : 0 ≤ w0) (h1 : w0 ≤ 1) :
    topWeight (rewardSeq w0 (n + 1)) = rewardUpdate (topWeight (rewardSeq w0 n)) ∧
    topWeight (rewardSeq w0 n) ≤ topWeight (rewardSeq w0 (n + 1)) ∧
    topWeight (rewardSeq w0 (n + 1)) ≤ 1 ∧
    (topWeight (rewardSeq w0 n) = 1 → topWeight (rewardSeq w0 (n + 1)) = 1) := by
  rw [rewardSeq_eq w0 (n + 1), rewardSeq_eq w0 n, topWeight_singleGoal,
    topWeight_singleGoal]
  obtain ⟨ha, hb⟩ := rewardIter_bounds h0 h1 n
  refine ⟨rfl, rewardUpdate_ge ha hb, ?_, ?_⟩
  · exact rewardUpdate_le_one hb
  · intro hone
    rw [rewardIter, hone, rewardUpdate_one]

/-- Witness for C5 at `w0 = 1/2`, `n = 0`: one reward takes the weight from
`1/2` to `1`. -/
theorem reward_seq_monotone_witness :
    topWeight (rewardSeq (1 / 2) 1) = rewardUpdate (topWeight (rewardSeq (1 / 2) 0)) ∧
    topWeight (rewardSeq (1 / 2) 0) ≤ topWeight (rewardSeq (1 / 2) 1) ∧
    topWeight (rewardSeq (1 / 2) 1) ≤ 1 ∧
    (topWeight (rewardSeq (1 / 2) 0) = 1 → topWeight (rewardSeq (1 / 2) 1) = 1) :=
  reward_seq_monotone (1 / 2) 0 (by norm_num) (by norm_num)

/-- C2: from any state in which the sampling target has been reached
(`sample_goals_ = false`), penalizing a goal whose current weight is below
`0.2` makes every queued goal's weight exactly `0.5`, raises
`max_sampled_goals_` by exactly `10` and sets `sample_goals_ = true`; if
`sample_goals_` is `true` or the weight condition fails, no reset occurs:
the flag and the target are unchanged and the queue only carries the single
`w / (w + 1)` update. -/
theorem penalize_region_reset {St : Type} (s : GoalRegionState St) (i : Nat) (g : WGoal St)
    (hg : s.goals_priority_queue_.get? i = some g) :
    (s.sample_goals_ = false → g.weight_ < 1 / 5 →
      (∀ g2 ∈ (WeightedGoalRegionSamples.penalizeWeightedGoal s i).goals_priority_queue_,
          g2.weight_ = 1 / 2) ∧
      (WeightedGoalRegionSamples.penalizeWeightedGoal s i).max_sampled_goals_ =
        s.max_sampled_goals_ + 10 ∧
      (WeightedGoalRegionSamples.penalizeWeightedGoal s i).sample_goals_ = true) ∧
    (s.sample_goals_ = true ∨ ¬ g.weight_ < 1 / 5 →
      (WeightedGoalRegionSamples.penalizeWeightedGoal s i).sample_goals_ = s.sample_goals_ ∧
      (WeightedGoalRegionSamples.penalizeWeightedGoal s i).max_sampled_goals_ =
        s.max_sampled_goals_ ∧
      (WeightedGoalRegionSamples.penalizeWeightedGoal s i).goals_priority_queue_ =
        s.goals_priority_queue_.set i ⟨g.state_, g.weight_ / (g.weight_ + 1)⟩) := by
  constructor
  · intro hflag hw
    simp only [WeightedGoalRegionSamples.penalizeWeightedGoal, hg]
    rw [if_pos ⟨hw, hflag⟩]
    refine ⟨?_, rfl, rfl⟩
    intro g2 hg2
    simp only [List.mem_map] at hg2
    obtain ⟨a, _, rfl⟩ := hg2
    rfl
  · intro hor
    have hcond : ¬ (g.weight_ < 1 / 5 ∧ s.sample_goals_ = false) := by
      rcases hor with h | h
      · intro hc
        rw [h] at hc
        exact Bool.true_eq_false.mp hc.2
      · intro hc
        exact h hc.1
    simp only [WeightedGoalRegionSamples.penalizeWeightedGoal, hg]
    rw [if_neg hcond]
    exact ⟨rfl, rfl, rfl⟩

/-- Concrete region state used to witness the region reset: the worker has
paused (`sample_goals_ = false`, target `5` reached) and the queue holds two
goals, the first of weight `1/10 < 0.2`. -/
def c2ResetState : GoalRegionState Unit :=
  { states_ := [(), ()]
    goals_priority_queue_ := [⟨(), 1 / 10⟩, ⟨(), 3 / 4⟩]
    terminateSamplingThread_ := false
    samplingThreadRunning_ := true
    samplingAttempts_ := 1
    minDist_ := 0
    max_sampled_goals_ := 5
    sample_goals_ := false
    num_sampled_goals_ := 5 }

/-- Witness for C2: penalizing the weight-`1/10` goal of `c2ResetState`
resets every queued weight to `1/2`, raises the target from `5` to `15` and
re-enables sampling. -/
theorem penalize_region_reset_witness :
    (∀ g2 ∈ (WeightedGoalRegionSamples.penalizeWeightedGoal c2ResetState 0).goals_priority_queue_,
        g2.weight_ = 1 / 2) ∧
    (WeightedGoalRegionSamples.penalizeWeightedGoal c2ResetState 0).max_sampled_goals_ =
      c2ResetState.max_sampled_goals_ + 10 ∧
    (WeightedGoalRegionSamples.penalizeWeightedGoal c2ResetState 0).sample_goals_ = true :=
  (penalize_region_reset c2ResetState 0 ⟨(), 1 / 10⟩ rfl).1 rfl (by norm_num)

/-- C6: `sampleWeightedGoal` and `sampleConsecutiveGoal` raise the
empty-region error exactly when the state list is empty; otherwise
`sampleWeightedGoal` copies the queue-top goal's state into the
out-parameter together with its weight and heap handle, and leaves the
region state (in particular the queue) unchanged. -/
theorem sample_goal_empty_region {St : Type} (s : GoalRegionState St) (cursor : Nat) :
    (isEmptyRegionError (WeightedGoalRegionSamples.sampleWeightedGoal s) = true ↔
      s.states_ = []) ∧
    (isEmptyRegionError (WeightedGoalRegionSamples.sampleConsecutiveGoal s cursor) = true ↔
      s.states_ = []) ∧
    (∀ g q, s.states_ ≠ [] → s.goals_priority_queue_ = g :: q →
      WeightedGoalRegionSamples.sampleWeightedGoal s =
        Except.ok (⟨g.state_, g.weight_, 0⟩, s)) := by
  refine ⟨?_, ?_, ?_⟩
  · cases hss : s.states_ with
    | nil =>
        simp [WeightedGoalRegionSamples.sampleWeightedGoal, hss, isEmptyRegionError]
    | cons st sts =>
        cases hq : s.goals_priority_queue_.head? <;>
          simp [WeightedGoalRegionSamples.sampleWeightedGoal, hss, hq, isEmptyRegionError]
  · cases hss : s.states_ with
    | nil =>
        simp [WeightedGoalRegionSamples.sampleConsecutiveGoal, hss, isEmptyRegionError]
    | cons st sts =>
        simp [WeightedGoalRegionSamples.sampleConsecutiveGoal, hss, isEmptyRegionError]
  · intro g q hne hq
    have hiso : s.states_.isEmpty = false := by
      cases hss : s.states_ with
      | nil => exact absurd hss hne
      | cons st sts => rfl
    simp [WeightedGoalRegionSamples.sampleWeightedGoal, hiso, hq]

/-- Concrete region state with one accepted goal state and a one-entry
queue, used to witness C6. -/
def c6State : GoalRegionState Unit :=
  { states_ := [()]
    goals_priority_queue_ := [⟨(), 1 / 2⟩]
    terminateSamplingThread_ := false
    samplingThreadRunning_ := false
    samplingAttempts_ := 1
    minDist_ := 0
    max_sampled_goals_ := 1
    sample_goals_ := false
    num_sampled_goals_ := 1 }

/-- Witness for C6: on `c6State` the weighted draw returns the queue-top
state with weight `1/2` and handle `0`, leaving the state untouched. -/
theorem sample_goal_empty_region_witness :
    WeightedGoalRegionSamples.sampleWeightedGoal c6State =
      Except.ok (⟨(), 1 / 2, 0⟩, c6State) :=
  (sample_goal_empty_region c6State 0).2.2 ⟨(), 1 / 2⟩ [] (by decide) rfl

/-- The goal-sampling scenario of the spec: target `max_sampled_goals = 5`,
a sampler function yielding `3` candidates per call, all passing the bounds
and validity oracles; `c1Scenario n` is the region state after `n`
iterations of the sampling loop. -/
def c1Scenario (n : Nat) : GoalRegionState Unit :=
  WeightedGoalRegionSamples.goalSamplingRun (fun _ => true) (fun _ => true) [(), (), ()] n
    (WeightedGoalRegionSamples.construct Unit 5 true 0)

/-- C1 counterexample: in the spec's scenario (3 valid candidates per call,
target 5) the loop reaches its fixpoint after two productive iterations
with `sample_goals_ = false`, but the goal store then holds `6` states, not
`5`: the whole batch in which the target is crossed is accepted. -/
theorem c1_store_size_counterexample :
    (c1Scenario 2).states_.length = 6 ∧
    (c1Scenario 2).sample_goals_ = false ∧
    WeightedGoalRegionSamples.goalSamplingIter (fun _ => true) (fun _ => true) [(), (), ()]
      (c1Scenario 2) = c1Scenario 2 ∧
    (c1Scenario 2).states_.length ≠ 5 :=
  ⟨rfl, rfl, rfl, by decide⟩

/-- C1 amended: in the spec's scenario the loop stops producing after two
iterations (further iterations change nothing), the should-sample flag is
`false`, and the goal store holds exactly `6` states (`num_sampled_goals_ =
6`): the accepted count overshoots the target to the first multiple of the
batch size at or above it. -/
theorem c1_scenario_final_state :
    (c1Scenario 2).states_.length = 6 ∧
    (c1Scenario 2).num_sampled_goals_ = 6 ∧
    (c1Scenario 2).sample_goals_ = false ∧
    WeightedGoalRegionSamples.goalSamplingIter (fun _ => true) (fun _ => true) [(), (), ()]
      (c1Scenario 2) = c1Scenario 2 :=
  ⟨rfl, rfl, rfl, rfl⟩

/-- Region state in which the accepted count has reached the target
(`num_sampled_goals_ = max_sampled_goals_ = 5`), production has paused
(`sample_goals_ = false`), the thread runs and no stop was requested. -/
def c3StuckState : GoalRegionState Unit :=
  { states_ := [(), (), (), (), ()]
    goals_priority_queue_ := []
    terminateSamplingThread_ := false
    samplingThreadRunning_ := true
    samplingAttempts_ := 2
    minDist_ := 0
    max_sampled_goals_ := 5
    sample_goals_ := false
    num_sampled_goals_ := 5 }

/-- C3 counterexample: at `c3StuckState` the accepted count has reached the
target and no stop was requested, yet the loop guard `isSampling` still
holds and further iterations leave the state unchanged — the thread spins
instead of exiting, so it does not self-terminate on reaching the target. -/
theorem c3_no_self_termination_counterexample :
    c3StuckState.max_sampled_goals_ ≤ c3StuckState.num_sampled_goals_ ∧
    c3StuckState.terminateSamplingThread_ = false ∧
    WeightedGoalRegionSamples.isSampling c3StuckState = true ∧
    WeightedGoalRegionSamples.goalSamplingRun (fun _ => true) (fun _ => true) [()] 3
      c3StuckState = c3StuckState :=
  ⟨by decide, rfl, rfl, rfl⟩

/-- C3 amended: the loop guard `isSampling` fails exactly when a stop has
been requested (`terminateSamplingThread_ = true`) or the thread pointer is
null, and on loop exit the epilogue marks the thread terminated; reaching
the accepted-goal target only pauses production — an iteration with
`num_sampled_goals_ ≥ max_sampled_goals_` is the identity, and the loop
keeps running. -/
theorem goal_sampling_thread_termination {St : Type} (bounds valid : St → Bool)
    (batch : List St) (s : GoalRegionState St) :
    (WeightedGoalRegionSamples.isSampling s = false ↔
      (s.terminateSamplingThread_ = true ∨ s.samplingThreadRunning_ = false)) ∧
    (WeightedGoalRegionSamples.threadEpilogue s).terminateSamplingThread_ = true ∧
    (s.max_sampled_goals_ ≤ s.num_sampled_goals_ →
      WeightedGoalRegionSamples.goalSamplingIter bounds valid batch s = s) := by
  refine ⟨?_, rfl, ?_⟩
  · cases ht : s.terminateSamplingThread_ <;> cases hr : s.samplingThreadRunning_ <;>
      simp [WeightedGoalRegionSamples.isSampling, ht, hr]
  · intro h
    unfold WeightedGoalRegionSamples.goalSamplingIter
    rw [if_neg (not_lt.mpr h)]

/-- Witness for C3 (amended): at `c3StuckState` the target is reached and
one more loop iteration changes nothing. -/
theorem goal_sampling_thread_termination_witness :
    WeightedGoalRegionSamples.goalSamplingIter (fun _ => true) (fun _ => true) [(), ()]
      c3StuckState = c3StuckState :=
  (goal_sampling_thread_termination (fun _ => true) (fun _ => true) [(), ()]
    c3StuckState).2.2 (by decide)

/-- C7 counterexample: the plain `addState` path inserts (the store grows by
one state) but its body contains no callback invocation whatever is
registered, and the sampling thread's insertion path likewise never fires
the callback — so the callback does not fire on every insertion path. -/
theorem c7_callback_counterexample :
    (WeightedGoalRegionSamples.addState c6State ()).states_.length =
      c6State.states_.length + 1 ∧
    addStateEvents.contains Ev.callback = false ∧
    samplingThreadInsertEvents.contains Ev.callback = false :=
  ⟨rfl, rfl, rfl⟩

/-- C7 amended: every insertion appends exactly one state, on each path
(plain `addState`, the sampling thread's accepted-candidate insertion, and
`addStateIfDifferent` when the distance filter passes, which otherwise
inserts nothing and returns `false`); the new-state callback fires only on
the `addStateIfDifferent` path — exactly when a state was inserted and a
callback is registered — and then strictly after the lock is released; the
plain `addState` path and the thread's insertion path never invoke it. -/
theorem add_paths_size_and_callback {St : Type} (s : GoalRegionState St) (st : St)
    (distanceGoal : List St → St → ℚ) (minDistance : ℚ) (registered : Bool) :
    (WeightedGoalRegionSamples.addState s st).states_.length = s.states_.length + 1 ∧
    addStateEvents.contains Ev.callback = false ∧
    (∀ bounds valid : St → Bool, ∀ acc : GoalRegionState St × Bool,
      (bounds st && valid st) = true →
      (WeightedGoalRegionSamples.acceptState bounds valid acc st).1.states_.length =
        acc.1.states_.length + 1) ∧
    samplingThreadInsertEvents.contains Ev.callback = false ∧
    (distanceGoal s.states_ st > minDistance →
      (WeightedGoalRegionSamples.addStateIfDifferent distanceGoal s st
          minDistance).1.states_.length = s.states_.length + 1 ∧
      (WeightedGoalRegionSamples.addStateIfDifferent distanceGoal s st minDistance).2 = true) ∧
    (¬ distanceGoal s.states_ st > minDistance →
      WeightedGoalRegionSamples.addStateIfDifferent distanceGoal s st minDistance =
        (s, false)) ∧
    (addStateIfDifferentEvents true registered).contains Ev.callback = registered ∧
    callbackOutsideLock (addStateIfDifferentEvents true registered) 0 = true := by
  refine ⟨?_, rfl, ?_, rfl, ?_, ?_, ?_, ?_⟩
  · simp [WeightedGoalRegionSamples.addState]
  · intro bounds valid acc hbv
    rw [Bool.and_eq_true] at hbv
    obtain ⟨hb, hv⟩ := hbv
    simp [WeightedGoalRegionSamples.acceptState, hb, hv]
  · intro hd
    simp [WeightedGoalRegionSamples.addStateIfDifferent, hd]
  · intro hd
    simp [WeightedGoalRegionSamples.addStateIfDifferent, hd]
  · cases registered <;> rfl
  · cases registered <;> rfl

/-- Witness for C7 (amended) with a distance oracle returning `1` and
threshold `0`: `addStateIfDifferent` inserts on `c6State` and grows the
store by one. -/
theorem add_paths_size_and_callback_witness :
    (WeightedGoalRegionSamples.addStateIfDifferent (fun _ _ => (1 : ℚ)) c6State ()
        0).1.states_.length = c6State.states_.length + 1 ∧
    (WeightedGoalRegionSamples.addStateIfDifferent (fun _ _ => (1 : ℚ)) c6State () 0).2 =
      true :=
  (add_paths_size_and_callback c6State () (fun _ _ => (1 : ℚ)) 0 true).2.2.2.2.1
    (by norm_num)

/-- C8 counterexample: the event traces of `penalizeWeightedGoal` (with or
without the region reset), `rewardWeightedGoal` and `sampleWeightedGoal`
contain shared-state accesses at lock depth zero — these methods touch the
queue and state list without acquiring the mutex. -/
theorem c8_no_lock_counterexample :
    accessesUnderLock (penalizeWeightedGoalEvents false) 0 = false ∧
    accessesUnderLock (penalizeWeightedGoalEvents true) 0 = false ∧
    accessesUnderLock (rewardWeightedGoalEvents true) 0 = false ∧
    accessesUnderLock sampleWeightedGoalEvents 0 = false := by
  decide

/-- C8 amended: the `GoalStates` wrapper operations (`addState`, the
thread's insertion, `addStateIfDifferent`, `clear`, `distanceGoal`,
`sampleGoal`, `getState`, `hasStates`, `getStateCount`, `maxSampleCount`)
and the start/stop operations perform all their shared-state accesses while
holding the single mutex, but `penalizeWeightedGoal`, `rewardWeightedGoal`,
`sampleWeightedGoal` and `sampleConsecutiveGoal` access the queue and state
list without acquiring it. -/
theorem lock_discipline (added registered reset updated : Bool) :
    accessesUnderLock addStateEvents 0 = true ∧
    accessesUnderLock samplingThreadInsertEvents 0 = true ∧
    accessesUnderLock (addStateIfDifferentEvents added registered) 0 = true ∧
    accessesUnderLock clearEvents 0 = true ∧
    accessesUnderLock distanceGoalEvents 0 = true ∧
    accessesUnderLock sampleGoalEvents 0 = true ∧
    accessesUnderLock getStateEvents 0 = true ∧
    accessesUnderLock hasStatesEvents 0 = true ∧
    accessesUnderLock getStateCountEvents 0 = true ∧
    accessesUnderLock maxSampleCountEvents 0 = true ∧
    accessesUnderLock startSamplingEvents 0 = true ∧
    accessesUnderLock stopSamplingEvents 0 = true ∧
    accessesUnderLock (penalizeWeightedGoalEvents reset) 0 = false ∧
    accessesUnderLock (rewardWeightedGoalEvents updated) 0 = false ∧
    accessesUnderLock sampleWeightedGoalEvents 0 = false ∧
    accessesUnderLock sampleConsecutiveGoalEvents 0 = false := by
  cases added <;> cases registered <;> cases reset <;> cases updated <;> decide

/-- C9: every shared operation of `WeightedGoalRegionSamples` and
`WeightedGoalRegionSampler` — the constructor, `startSampling`,
`stopSampling`, `isSampling`, the loop body and epilogue of the sampling
thread, `clear`, `addState`, `addStateIfDifferent`, `penalizeWeightedGoal`,
`rewardWeightedGoal`, `sampleWeightedGoal` and `sampleConsecutiveGoal` —
computes the same results and the same state updates in the two classes;
the only added behaviour of `WeightedGoalRegionSampler` is the
roadmap-growing worker (`WeightedGoalRegionSampler.roadmapGrowingIter` and
its start/stop/guard operations), which has no counterpart in
`WeightedGoalRegionSamples`. -/
theorem samples_sampler_equivalence :
    (∀ (St : Type) (max0 : Nat) (autoStart : Bool) (minDist : ℚ),
      WeightedGoalRegionSamples.construct St max0 autoStart minDist =
        WeightedGoalRegionSampler.construct St max0 autoStart minDist) ∧
    (∀ (St : Type) (s : GoalRegionState St),
      WeightedGoalRegionSamples.startSampling s = WeightedGoalRegionSampler.startSampling s) ∧
    (∀ (St : Type) (s : GoalRegionState St),
      WeightedGoalRegionSamples.stopSampling s = WeightedGoalRegionSampler.stopSampling s) ∧
    (∀ (St : Type) (s : GoalRegionState St),
      WeightedGoalRegionSamples.isSampling s = WeightedGoalRegionSampler.isSampling s) ∧
    (∀ (St : Type) (bounds valid : St → Bool) (batch : List St) (s : GoalRegionState St),
      WeightedGoalRegionSamples.goalSamplingIter bounds valid batch s =
        WeightedGoalRegionSampler.goalSamplingIter bounds valid batch s) ∧
    (∀ (St : Type) (s : GoalRegionState St),
      WeightedGoalRegionSamples.threadEpilogue s = WeightedGoalRegionSampler.threadEpilogue s) ∧
    (∀ (St : Type) (s : GoalRegionState St),
      WeightedGoalRegionSamples.clear s = WeightedGoalRegionSampler.clear s) ∧
    (∀ (St : Type) (s : GoalRegionState St) (st : St),
      WeightedGoalRegionSamples.addState s st = WeightedGoalRegionSampler.addState s st) ∧
    (∀ (St : Type) (d : List St → St → ℚ) (s : GoalRegionState St) (st : St) (m : ℚ),
      WeightedGoalRegionSamples.addStateIfDifferent d s st m =
        WeightedGoalRegionSampler.addStateIfDifferent d s st m) ∧
    (∀ (St : Type) (s : GoalRegionState St) (i : Nat),
      WeightedGoalRegionSamples.penalizeWeightedGoal s i =
        WeightedGoalRegionSampler.penalizeWeightedGoal s i) ∧
    (∀ (St : Type) (s : GoalRegionState St) (i : Nat),
      WeightedGoalRegionSamples.rewardWeightedGoal s i =
        WeightedGoalRegionSampler.rewardWeightedGoal s i) ∧
    (∀ (St : Type) (s : GoalRegionState St),
      WeightedGoalRegionSamples.sampleWeightedGoal s =
        WeightedGoalRegionSampler.sampleWeightedGoal s) ∧
    (∀ (St : Type) (s : GoalRegionState St) (cursor : Nat),
      WeightedGoalRegionSamples.sampleConsecutiveGoal s cursor =
        WeightedGoalRegionSampler.sampleConsecutiveGoal s cursor) ∧
    (∀ (St : Type) (s : GoalRegionState St) (g : WGoal St),
      WeightedGoalRegionSamples.pushGoal s g = WeightedGoalRegionSampler.pushGoal s g) :=
  ⟨fun _ _ _ _ => rfl, fun _ _ => rfl, fun _ _ => rfl, fun _ _ => rfl,
    fun _ _ _ _ _ => rfl, fun _ _ => rfl, fun _ _ => rfl, fun _ _ _ => rfl,
    fun _ _ _ _ _ => rfl, fun _ _ _ => rfl, fun _ _ _ => rfl, fun _ _ => rfl,
    fun _ _ _ => rfl, fun _ _ _ => rfl⟩

/-- States reachable through the operations of `WeightedGoalRegionSamples`:
construction (with or without auto-start), sampling-loop iterations with
arbitrary sampler output and oracles, the weight mutators, `clear`, the
insertion operations, start/stop, the thread epilogue, and external queue
population.  (`sampleWeightedGoal` and `sampleConsecutiveGoal` never change
the state, so they need no step.) -/
inductive Reachable {St : Type} : GoalRegionState St → Prop where
  | construct_start (max0 : Nat) (autoStart : Bool) (minDist : ℚ) :
      Reachable (WeightedGoalRegionSamples.construct St max0 autoStart minDist)
  | iter {s : GoalRegionState St} (bounds valid : St → Bool) (batch : List St) :
      Reachable s →
      Reachable (WeightedGoalRegionSamples.goalSamplingIter bounds valid batch s)
  | penalize {s : GoalRegionState St} (i : Nat) :
      Reachable s → Reachable (WeightedGoalRegionSamples.penalizeWeightedGoal s i)
  | reward {s : GoalRegionState St} (i : Nat) :
      Reachable s → Reachable (WeightedGoalRegionSamples.rewardWeightedGoal s i)
  | clearStep {s : GoalRegionState St} :
      Reachable s → Reachable (WeightedGoalRegionSamples.clear s)
  | addStateStep {s : GoalRegionState St} (st : St) :
      Reachable s → Reachable (WeightedGoalRegionSamples.addState s st)
  | addIfDifferentStep {s : GoalRegionState St} (d : List St → St → ℚ) (st : St) (m : ℚ) :
      Reachable s → Reachable (WeightedGoalRegionSamples.addStateIfDifferent d s st m).1
  | startStep {s : GoalRegionState St} :
      Reachable s → Reachable (WeightedGoalRegionSamples.startSampling s)
  | stopStep {s : GoalRegionState St} :
      Reachable s → Reachable (WeightedGoalRegionSamples.stopSampling s)
  | epilogueStep {s : GoalRegionState St} :
      Reachable s → Reachable (WeightedGoalRegionSamples.threadEpilogue s)
  | pushGoalStep {s : GoalRegionState St} (g : WGoal St) :
      Reachable s → Reachable (WeightedGoalRegionSamples.pushGoal s g)

/-- The relation claimed invariant: when the should-sample flag is off, the
accepted count has reached the current target. -/
def targetInvariant {St : Type} (s : GoalRegionState St) : Prop :=
  s.sample_goals_ = false → s.max_sampled_goals_ ≤ s.num_sampled_goals_

lemma acceptState_foldl_fields {St : Type} (bounds valid : St → Bool) (batch : List St) :
    ∀ acc : GoalRegionState St × Bool,
      (batch.foldl (WeightedGoalRegionSamples.acceptState bounds valid) acc).1.max_sampled_goals_ =
        acc.1.max_sampled_goals_ ∧
      (batch.foldl (WeightedGoalRegionSamples.acceptState bounds valid) acc).1.sample_goals_ =
        acc.1.sample_goals_ ∧
      acc.1.num_sampled_goals_ ≤
        (batch.foldl (WeightedGoalRegionSamples.acceptState bounds valid) acc).1.num_sampled_goals_ := by
  induction batch with
  | nil => exact fun acc => ⟨rfl, rfl, le_refl _⟩
  | cons st rest ih =>
      intro acc
      rw [List.foldl_cons]
      obtain ⟨h1, h2, h3⟩ := ih (WeightedGoalRegionSamples.acceptState bounds valid acc st)
      have hstep :
          (WeightedGoalRegionSamples.acceptState bounds valid acc st).1.max_sampled_goals_ =
            acc.1.max_sampled_goals_ ∧
          (WeightedGoalRegionSamples.acceptState bounds valid acc st).1.sample_goals_ =
            acc.1.sample_goals_ ∧
          acc.1.num_sampled_goals_ ≤
            (WeightedGoalRegionSamples.acceptState bounds valid acc st).1.num_sampled_goals_ := by
        unfold WeightedGoalRegionSamples.acceptState
        split
        · exact ⟨rfl, rfl, Nat.le_succ _⟩
        · exact ⟨rfl, rfl, le_refl _⟩
      exact ⟨h1.trans hstep.1, h2.trans hstep.2.1, le_trans hstep.2.2 h3⟩

lemma goalSamplingIter_targetInvariant {St : Type} (bounds valid : St → Bool)
    (batch : List St) (s : GoalRegionState St) (hs : targetInvariant s) :
    targetInvariant (WeightedGoalRegionSamples.goalSamplingIter bounds valid batch s) := by
  intro hflag
  obtain ⟨hmax, hfl, hnum⟩ := acceptState_foldl_fields bounds valid batch (s, false)
  by_cases hlt : s.num_sampled_goals_ < s.max_sampled_goals_
  · simp only [WeightedGoalRegionSamples.goalSamplingIter, if_pos hlt] at hflag ⊢
    set r := batch.foldl (WeightedGoalRegionSamples.acceptState bounds valid) (s, false) with hr
    by_cases hge : r.1.max_sampled_goals_ ≤ r.1.num_sampled_goals_
    · by_cases hinc : r.2 <;> simp [hge, hinc]
    · exfalso
      by_cases hinc : r.2 <;> simp [hge, hinc] at hflag
      all_goals
        exact absurd (hs (hfl ▸ hflag)) (not_le.mpr hlt)
  · simp only [WeightedGoalRegionSamples.goalSamplingIter, if_neg hlt] at hflag ⊢
    exact hs hflag

lemma penalize_targetInvariant {St : Type} (s : GoalRegionState St) (i : Nat)
    (hs : targetInvariant s) :
    targetInvariant (WeightedGoalRegionSamples.penalizeWeightedGoal s i) := by
  intro hflag
  cases hg : s.goals_priority_queue_.get? i with
  | none =>
      simp only [WeightedGoalRegionSamples.penalizeWeightedGoal, hg] at hflag ⊢
      exact hs hflag
  | some g =>
      simp only [WeightedGoalRegionSamples.penalizeWeightedGoal, hg] at hflag ⊢
      by_cases hc : g.weight_ < 1 / 5 ∧ s.sample_goals_ = false
      · rw [if_pos hc] at hflag
        exact absurd hflag (by simp)
      · rw [if_neg hc] at hflag ⊢
        exact hs hflag

lemma reward_targetInvariant {St : Type} (s : GoalRegionState St) (i : Nat)
    (hs : targetInvariant s) :
    targetInvariant (WeightedGoalRegionSamples.rewardWeightedGoal s i) := by
  intro hflag
  cases hg : s.goals_priority_queue_.get? i with
  | none =>
      simp only [WeightedGoalRegionSamples.rewardWeightedGoal, hg] at hflag ⊢
      exact hs hflag
  | some g =>
      simp only [WeightedGoalRegionSamples.rewardWeightedGoal, hg] at hflag ⊢
      by_cases hw : g.weight_ < 1
      · rw [if_pos hw] at hflag ⊢
        exact hs hflag
      · rw [if_neg hw] at hflag ⊢
        exact hs hflag

/-- C10: in every reachable state, if the should-sample flag is `false`
then the accepted-goal counter has reached the current target
(`max_sampled_goals_ ≤ num_sampled_goals_`): the flag starts `true`, loop
iterations set it `false` only once the counter has reached the target, and
the region reset, the only operation raising the target, simultaneously
sets the flag back to `true`. -/
theorem sample_goals_flag_invariant {St : Type} (s : GoalRegionState St) (h : Reachable s) :
    s.sample_goals_ = false → s.max_sampled_goals_ ≤ s.num_sampled_goals_ := by
  induction h with
  | construct_start max0 autoStart minDist =>
      intro hflag
      exfalso
      cases ha : autoStart <;>
        simp [WeightedGoalRegionSamples.construct, WeightedGoalRegionSamples.startSampling,
          ha] at hflag
  | iter bounds valid batch hr ih =>
      exact goalSamplingIter_targetInvariant bounds valid batch _ ih
  | penalize i hr ih => exact penalize_targetInvariant _ i ih
  | reward i hr ih => exact reward_targetInvariant _ i ih
  | clearStep hr ih => exact ih
  | addStateStep st hr ih => exact ih
  | @addIfDifferentStep s' d st m hr ih =>
      intro hflag
      unfold WeightedGoalRegionSamples.addStateIfDifferent at hflag ⊢
      by_cases hd : d s'.states_ st > m
      · rw [if_pos hd] at hflag ⊢
        exact ih hflag
      · rw [if_neg hd] at hflag ⊢
        exact ih hflag
  | @startStep s' hr ih =>
      intro hflag
      by_cases hrun : s'.samplingThreadRunning_ = true <;>
        simp [WeightedGoalRegionSamples.startSampling, hrun] at hflag ⊢ <;>
        exact ih hflag
  | stopStep hr ih => exact ih
  | epilogueStep hr ih => exact ih
  | pushGoalStep g hr ih => exact ih

/-- Witness for C10: starting from a freshly constructed region with target
`3` and running one loop iteration in which the sampler yields `3` valid
candidates produces a reachable state whose flag is `false`, and the
invariant gives `max_sampled_goals_ ≤ num_sampled_goals_` there (`3 ≤ 3`). -/
theorem sample_goals_flag_invariant_witness :
    (WeightedGoalRegionSamples.goalSamplingIter (fun _ => true) (fun _ => true) [(), (), ()]
        (WeightedGoalRegionSamples.construct Unit 3 true 0)).max_sampled_goals_ ≤
      (WeightedGoalRegionSamples.goalSamplingIter (fun _ => true) (fun _ => true) [(), (), ()]
        (WeightedGoalRegionSamples.construct Unit 3 true 0)).num_sampled_goals_ :=
  sample_goals_flag_invariant _
    (Reachable.iter (fun _ => true) (fun _ => true) [(), (), ()]
      (Reachable.construct_start 3 true 0)) rfl
